import Mathlib

/-!
Shallow embedding of `src/app/features/unrestricted-features/reset-password/
reset-password.component.ts` (ResetPasswordComponent): a three-step
credential-recovery workflow (enter email, verify OTP, set new password)
driven by two boolean step flags, an rxjs interval countdown timer, and
three remote calls.  Remote completions are modelled by passing the
`RemoteResult` to the handler; side effects (remote calls, snackbar
notifications, router navigation) are collected in an effect list; the rxjs
`Subscription` object identity is modelled by a run id (`nextRunId` counts
the subscriptions ever created, `otpSubscription` holds the live one).
-/

namespace ResetPw

/-- Outcome of a remote call delivered to the `subscribe` handlers:
`success` carries `response.data`, `failure` is the error branch. -/
inductive RemoteResult where
  | success (dataMsg : String)
  | failure
deriving DecidableEq, Repr

/-- Observable side effects of the component: the three
`ResetPasswordService` calls, `snackBar.open`, and `router.navigate`. -/
inductive Effect where
  | requestCode (email : String)
  | verifyCode (email : String) (otp : String)
  | resetPasswordCall (email : String) (newPassword : String) (confirmPassword : String)
  | notify (message : String)
  | navigate (route : String)
deriving DecidableEq, Repr

/-- The mutable fields of `ResetPasswordComponent`, plus the form control
values (`emailForm.email`, `otpForm.otp`, `resetPasswordForm.password` /
`confirmPassword`) and the run-id bookkeeping for subscriptions. -/
structure State where
  email : String
  otp : String
  password : String
  confirmPassword : String
  isOtpSent : Bool
  isOtpVerified : Bool
  otpTimer : Nat
  remainingTime : Nat
  resendOtpDisabled : Bool
  otpSubscription : Option Nat
  nextRunId : Nat
  passwordVisible : Bool
  confirmPasswordVisible : Bool
  isLoadingOtp : Bool
deriving DecidableEq, Repr

/-- Field initializers of the component (forms start empty). -/
def initState : State :=
  { email := ""
  , otp := ""
  , password := ""
  , confirmPassword := ""
  , isOtpSent := false
  , isOtpVerified := false
  , otpTimer := 60
  , remainingTime := 60
  , resendOtpDisabled := false
  , otpSubscription := none
  , nextRunId := 0
  , passwordVisible := false
  , confirmPasswordVisible := false
  , isLoadingOtp := false }

/-- Modelled from the spec: `emailValidator()` lives in
`service/utility/validator`, which is not under `src/`; the spec describes
it only as a standard email-shape check.  Exactly one at-sign separating a
nonempty local part from a domain that contains a dot and neither starts
nor ends with one. -/
def isValidEmail (s : String) : Bool :=
  let cs := s.toList
  match cs.findIdx? (fun c => c = '@') with
  | none => false
  | some i =>
      let loc := cs.take i
      let dom := cs.drop (i + 1)
      !loc.isEmpty && !dom.isEmpty && !dom.contains '@' && dom.contains '.' &&
        dom.head? ≠ some '.' && dom.getLast? ≠ some '.'

/-- A character outside the alphanumeric range and not a space. -/
def isSpecialChar (c : Char) : Bool :=
  !c.isAlphanum && c ≠ ' '

/-- Modelled from the spec: `passwordValidator()` is not under `src/`; the
spec (corroborated by the error keys read in `getErrorMessage`) requires
length ≥ 8, an uppercase letter, a lowercase letter, a special character,
and no spaces. -/
def isStrongPassword (s : String) : Bool :=
  decide (s.length ≥ 8) && s.toList.any Char.isUpper && s.toList.any Char.isLower &&
    s.toList.any isSpecialChar && !s.toList.any (fun c => c = ' ')

/-- Validity of `emailForm`: `Validators.required` plus `emailValidator()`. -/
def emailFormValid (st : State) : Bool :=
  st.email ≠ "" && isValidEmail st.email

/-- Validity of `otpForm`: `Validators.required` plus `Validators.minLength(6)`. -/
def otpFormValid (st : State) : Bool :=
  st.otp ≠ "" && decide (st.otp.length ≥ 6)

/-- Validity of `resetPasswordForm`: password required, min length 8 and
strong; confirmPassword required and equal to password
(`matchPasswordValidator`). -/
def resetPasswordFormValid (st : State) : Bool :=
  st.password ≠ "" && decide (st.password.length ≥ 8) && isStrongPassword st.password &&
    st.confirmPassword ≠ "" && st.confirmPassword = st.password

/-- `stopOtpTimer()`: unsubscribe and null the handle when one is live. -/
def stopOtpTimer (st : State) : State :=
  match st.otpSubscription with
  | some _ => { st with otpSubscription := none }
  | none => st

/-- `startOtpTimer()`: stop any live run, reset `remainingTime` to
`otpTimer`, subscribe a fresh interval run (fresh run id). -/
def startOtpTimer (st : State) : State :=
  let st1 := stopOtpTimer st
  { st1 with
      remainingTime := st1.otpTimer
    , otpSubscription := some st1.nextRunId
    , nextRunId := st1.nextRunId + 1 }

/-- One delivery of the `interval(1000)` callback belonging to run `r`: it
runs only while that run's subscription is still the live one; it
decrements `remainingTime` while positive, otherwise stops the timer and
re-enables resend. -/
def otpTick (r : Nat) (st : State) : State :=
  if st.otpSubscription = some r then
    if st.remainingTime > 0 then
      { st with remainingTime := st.remainingTime - 1 }
    else
      { stopOtpTimer st with resendOtpDisabled := false }
  else st

/-- Whether a tick from run `r` would be observed (its callback runs) in `st`. -/
def tickFires (r : Nat) (st : State) : Bool :=
  st.otpSubscription = some r

/-- `sendOtp()` with the completion of `resetPasswordService.sendOtp`
delivered as `res`.  Returns before anything happens when `emailForm` is
invalid. -/
def sendOtp (res : RemoteResult) (st : State) : State × List Effect :=
  if !emailFormValid st then (st, [])
  else
    let st1 := { st with isLoadingOtp := true }
    match res with
    | RemoteResult.success msg =>
        let st2 := { st1 with isOtpSent := true, isLoadingOtp := false, resendOtpDisabled := true }
        (startOtpTimer st2, [Effect.requestCode st.email, Effect.notify msg])
    | RemoteResult.failure =>
        ({ st1 with isLoadingOtp := false },
          [Effect.requestCode st.email, Effect.notify ("Error sending OTP. Please try again.")])

/-- `verifyOtp()` with the completion of `resetPasswordService.verifyOtp`
delivered as `res`.  Note: the method has no guard on `otpForm`. -/
def verifyOtp (res : RemoteResult) (st : State) : State × List Effect :=
  match res with
  | RemoteResult.success msg =>
      (stopOtpTimer { st with isOtpVerified := true },
        [Effect.verifyCode st.email st.otp, Effect.notify msg])
  | RemoteResult.failure =>
      (st, [Effect.verifyCode st.email st.otp, Effect.notify ("Invalid OTP. Please try again.")])

/-- `resetPassword()` with the completion of
`resetPasswordService.resetPassword` delivered as `res`.  Returns before
anything happens when `resetPasswordForm` is invalid. -/
def resetPassword (res : RemoteResult) (st : State) : State × List Effect :=
  if !resetPasswordFormValid st then (st, [])
  else
    match res with
    | RemoteResult.success msg =>
        (st, [Effect.resetPasswordCall st.email st.password st.confirmPassword,
              Effect.notify msg, Effect.navigate ("/login")])
    | RemoteResult.failure =>
        (st, [Effect.resetPasswordCall st.email st.password st.confirmPassword,
              Effect.notify ("Error resetting password. Please try again.")])

/-- `handleBackNavigation()`: walk the step flags back one stage, or leave
to the login route from the initial stage. -/
def handleBackNavigation (st : State) : State × List Effect :=
  if st.isOtpVerified then
    ({ st with isOtpVerified := false, isOtpSent := true }, [])
  else if st.isOtpSent then
    ({ st with isOtpSent := false }, [])
  else
    (st, [Effect.navigate ("/login")])

/-- `ngOnDestroy()`: stop the timer at teardown. -/
def ngOnDestroy (st : State) : State :=
  stopOtpTimer st

/-- `togglePasswordVisibility()`. -/
def togglePasswordVisibility (st : State) : State :=
  { st with passwordVisible := !st.passwordVisible }

/-- `toggleConfirmPasswordVisibility()`. -/
def toggleConfirmPasswordVisibility (st : State) : State :=
  { st with confirmPasswordVisible := !st.confirmPasswordVisible }

/-- The workflow step, inferred from the two flags exactly as the template
selects which form to show. -/
inductive WorkflowStep where
  | EnteringEmail
  | AwaitingOtp
  | OtpVerified
deriving DecidableEq, Repr

/-- Current step from the flags: `isOtpVerified` wins, then `isOtpSent`. -/
def currentStep (st : State) : WorkflowStep :=
  if st.isOtpVerified then WorkflowStep.OtpVerified
  else if st.isOtpSent then WorkflowStep.AwaitingOtp
  else WorkflowStep.EnteringEmail

/-- Modelled from the spec: the component template
(`reset-password.component.html`, not under `src/`) dispatches the resend
trigger through a button disabled while `resendOtpDisabled`, so the
trigger reaches `sendOtp` only when resend is enabled. -/
def resendOtp (res : RemoteResult) (st : State) : State × List Effect :=
  if st.resendOtpDisabled then (st, []) else sendOtp res st

/-- Modelled from the spec: the template renders the new-password form (and
its submit trigger) only at step `OtpVerified`, so the trigger reaches
`resetPassword` only there. -/
def submitNewPassword (res : RemoteResult) (st : State) : State × List Effect :=
  if currentStep st = WorkflowStep.OtpVerified then resetPassword res st else (st, [])

/-- The observable workflow state named by the spec: current step,
remaining seconds, resend-disabled flag, and the field values. -/
structure Observable where
  step : WorkflowStep
  remainingSeconds : Nat
  resendDisabled : Bool
  email : String
  otp : String
  password : String
  confirmPassword : String
deriving DecidableEq, Repr

/-- Projection of a component state onto the spec's observable state. -/
def observable (st : State) : Observable :=
  { step := currentStep st
  , remainingSeconds := st.remainingTime
  , resendDisabled := st.resendOtpDisabled
  , email := st.email
  , otp := st.otp
  , password := st.password
  , confirmPassword := st.confirmPassword }

/-- The event alphabet of one workflow instance: user edits of the form
fields, the user-triggered operations (with the remote completion each one
receives), timer ticks (tagged by run id), and teardown. -/
inductive Event where
  | setEmail (s : String)
  | setOtp (s : String)
  | setPassword (s : String)
  | setConfirmPassword (s : String)
  | sendOtpEv (res : RemoteResult)
  | verifyOtpEv (res : RemoteResult)
  | resetPasswordEv (res : RemoteResult)
  | resendOtpEv (res : RemoteResult)
  | submitNewPasswordEv (res : RemoteResult)
  | backEv
  | tickEv (r : Nat)
  | destroyEv
  | togglePasswordEv
  | toggleConfirmPasswordEv
deriving DecidableEq, Repr

/-- One event processed to completion (the spec's cooperative event loop). -/
def applyEvent (e : Event) (st : State) : State × List Effect :=
  match e with
  | Event.setEmail s => ({ st with email := s }, [])
  | Event.setOtp s => ({ st with otp := s }, [])
  | Event.setPassword s => ({ st with password := s }, [])
  | Event.setConfirmPassword s => ({ st with confirmPassword := s }, [])
  | Event.sendOtpEv res => sendOtp res st
  | Event.verifyOtpEv res => verifyOtp res st
  | Event.resetPasswordEv res => resetPassword res st
  | Event.resendOtpEv res => resendOtp res st
  | Event.submitNewPasswordEv res => submitNewPassword res st
  | Event.backEv => handleBackNavigation st
  | Event.tickEv r => (otpTick r st, [])
  | Event.destroyEv => (ngOnDestroy st, [])
  | Event.togglePasswordEv => (togglePasswordVisibility st, [])
  | Event.toggleConfirmPasswordEv => (toggleConfirmPasswordVisibility st, [])

/-- Run a list of events front to back, keeping only the state. -/
def runEvents : List Event → State → State
  | [], st => st
  | e :: evs, st => runEvents evs (applyEvent e st).1

/-- Run a list of events from the component's initial state. -/
def runTrace (evs : List Event) : State :=
  runEvents evs initState

/-- States of the workflow reachable from the initial state by events. -/
inductive Reachable : State → Prop where
  | init : Reachable initState
  | step (e : Event) (st : State) : Reachable st → Reachable (applyEvent e st).1

/-- A user trace that reaches `AwaitingOtp` with the timer running. -/
def awaitingTrace : List Event :=
  [Event.setEmail ("user@example.com"), Event.sendOtpEv (RemoteResult.success ("OTP sent"))]

/-- `awaitingTrace` extended by a successful OTP verification. -/
def verifiedTrace : List Event :=
  awaitingTrace ++ [Event.verifyOtpEv (RemoteResult.success ("OTP verified"))]

/-- `awaitingTrace` followed by sixty delivered ticks of run 0: the counter
has just reached zero but the expiry tick has not yet been delivered. -/
def expiredTrace : List Event :=
  awaitingTrace ++ List.replicate 60 (Event.tickEv 0)

/-- `stopOtpTimer` only nulls the subscription handle. -/
theorem stopOtpTimer_eq (st : State) :
    stopOtpTimer st = { st with otpSubscription := none } := by
  rcases st with ⟨e, o, p, cp, os, ov, t, rt, rd, sub, nid, pv, cpv, lo⟩
  cases sub <;> rfl

/-- Every event either keeps the subscription handle, nulls it, or installs
the fresh run id while bumping the counter past it; the run-id counter
never decreases. -/
theorem applyEvent_sub (e : Event) (st : State) :
    ((applyEvent e st).1.otpSubscription = st.otpSubscription
      ∨ (applyEvent e st).1.otpSubscription = none
      ∨ ((applyEvent e st).1.otpSubscription = some st.nextRunId
          ∧ st.nextRunId < (applyEvent e st).1.nextRunId))
    ∧ st.nextRunId ≤ (applyEvent e st).1.nextRunId := by
  cases e <;>
    simp only [applyEvent, sendOtp, verifyOtp, resetPassword, resendOtp, submitNewPassword,
      handleBackNavigation, otpTick, ngOnDestroy, startOtpTimer, stopOtpTimer_eq,
      togglePasswordVisibility, toggleConfirmPasswordVisibility] <;>
    (repeat' split) <;> simp

/-- Runs through a list of events: empty case. -/
theorem runEvents_nil (st : State) : runEvents [] st = st := rfl

/-- Runs through a list of events: cons case. -/
theorem runEvents_cons (e : Event) (evs : List Event) (st : State) :
    runEvents (e :: evs) st = runEvents evs (applyEvent e st).1 := rfl

/-- Running events from a reachable state stays reachable. -/
theorem reachable_runEvents (evs : List Event) (st : State) (h : Reachable st) :
    Reachable (runEvents evs st) := by
  induction evs generalizing st with
  | nil => exact h
  | cons e evs ih => exact ih _ (Reachable.step e st h)

/-- Every `runTrace` state is reachable. -/
theorem reachable_runTrace (evs : List Event) : Reachable (runTrace evs) :=
  reachable_runEvents evs initState Reachable.init

/-- Run `r` is dead: it is not the live subscription and its id is below
the fresh-id counter, so no later subscription can reuse it. -/
def deadRun (r : Nat) (st : State) : Prop :=
  st.otpSubscription ≠ some r ∧ r < st.nextRunId

/-- Dead runs stay dead across every event. -/
theorem deadRun_applyEvent (e : Event) (st : State) (r : Nat) (h : deadRun r st) :
    deadRun r (applyEvent e st).1 := by
  obtain ⟨h1, h2⟩ := h
  obtain ⟨hd, hn⟩ := applyEvent_sub e st
  rcases hd with h3 | h3 | ⟨h3, h4⟩
  · exact ⟨h3 ▸ h1, lt_of_lt_of_le h2 hn⟩
  · refine ⟨?_, lt_of_lt_of_le h2 hn⟩
    rw [h3]
    intro hc
    exact Option.noConfusion hc
  · refine ⟨?_, lt_of_lt_of_le h2 hn⟩
    rw [h3]
    intro hc
    have := Option.some.inj hc
    omega

/-- Dead runs stay dead across any sequence of events. -/
theorem deadRun_runEvents (evs : List Event) (st : State) (r : Nat) (h : deadRun r st) :
    deadRun r (runEvents evs st) := by
  induction evs generalizing st with
  | nil => exact h
  | cons e evs ih => exact ih _ (deadRun_applyEvent e st r h)

/-- The live subscription's id is always below the fresh-id counter. -/
def subFresh (st : State) : Prop :=
  ∀ r, st.otpSubscription = some r → r < st.nextRunId

/-- Freshness of the live run id is preserved by every event. -/
theorem subFresh_applyEvent (e : Event) (st : State) (h : subFresh st) :
    subFresh (applyEvent e st).1 := by
  intro r hr
  obtain ⟨hd, hn⟩ := applyEvent_sub e st
  rcases hd with h3 | h3 | ⟨h3, h4⟩
  · exact lt_of_lt_of_le (h r (h3 ▸ hr)) hn
  · rw [h3] at hr
    exact Option.noConfusion hr
  · rw [h3] at hr
    have := Option.some.inj hr
    omega

/-- Freshness of the live run id holds in every reachable state. -/
theorem reachable_subFresh (st : State) (h : Reachable st) : subFresh st := by
  induction h with
  | init =>
      intro r hr
      exact Option.noConfusion hr
  | step e st hst ih => exact subFresh_applyEvent e st ih

/-- When a countdown is live, resend is disabled. -/
def timerImpliesDisabled (st : State) : Prop :=
  st.otpSubscription.isSome = true → st.resendOtpDisabled = true

/-- The one-directional timer/resend invariant is preserved by every event. -/
theorem timerImpliesDisabled_applyEvent (e : Event) (st : State)
    (h : timerImpliesDisabled st) : timerImpliesDisabled (applyEvent e st).1 := by
  unfold timerImpliesDisabled at h ⊢
  cases e <;>
    simp only [applyEvent, sendOtp, verifyOtp, resetPassword, resendOtp, submitNewPassword,
      handleBackNavigation, otpTick, ngOnDestroy, startOtpTimer, stopOtpTimer_eq,
      togglePasswordVisibility, toggleConfirmPasswordVisibility] <;>
    (repeat' split) <;> simp_all

/-- A concrete state at `OtpVerified` with valid password fields. -/
def verifiedState : State :=
  { initState with
      email := "user@example.com"
    , password := "Abc12345!"
    , confirmPassword := "Abc12345!"
    , isOtpSent := true
    , isOtpVerified := true }

/-- Claim C1 as written is false on the code: from the reachable
`AwaitingOtp` state whose OTP field is still empty (length 0 < 6),
`verifyOtp()` nevertheless issues the remote `verifyCode(email, otp)`
call. -/
theorem c1_counterexample :
    (runTrace awaitingTrace).otp.length < 6
    ∧ (verifyOtp RemoteResult.failure (runTrace awaitingTrace)).2
        = [Effect.verifyCode ("user@example.com") (""),
           Effect.notify ("Invalid OTP. Please try again.")] := by
  exact ⟨by decide, rfl⟩

/-- Claim C1 (amended): `verifyOtp()` has no guard on the OTP field — it
issues the remote `verifyCode(email, otp)` call unconditionally, whatever
the field's length; only the failure outcome keeps the state unchanged. -/
theorem c1_verifyOtp_always_calls (st : State) (res : RemoteResult) :
    (verifyOtp res st).2.head? = some (Effect.verifyCode st.email st.otp) := by
  cases res <;> rfl

/-- Claim C2 as written is false on the code: after a successful OTP
verification (a reachable state), the countdown subscription is gone but
`resendOtpDisabled` is still `true`, so the biconditional fails. -/
theorem c2_counterexample :
    ¬ ∀ st : State, Reachable st →
        (st.resendOtpDisabled = true ↔ st.otpSubscription.isSome = true) := by
  intro h
  have hr : Reachable (runTrace verifiedTrace) := reachable_runTrace verifiedTrace
  have h1 : (runTrace verifiedTrace).otpSubscription.isSome = true := (h _ hr).mp rfl
  have h2 : (runTrace verifiedTrace).otpSubscription.isSome = false := rfl
  exact Bool.noConfusion (h2.symm.trans h1)

/-- Claim C2 (amended): in every reachable state, an active countdown
implies `resendOtpDisabled`; and `resendOtpDisabled` flips to `false` at
the first tick delivered with `remainingTime` already 0 (one tick after it
reaches 0), which also stops the timer.  The converse direction of the
original biconditional fails: `verifyOtp` success and teardown stop the
timer while leaving `resendOtpDisabled` true. -/
theorem c2_active_timer_implies_resend_disabled (st : State) (h : Reachable st) :
    (st.otpSubscription.isSome = true → st.resendOtpDisabled = true)
    ∧ (∀ r, st.otpSubscription = some r → st.remainingTime = 0 →
        (otpTick r st).resendOtpDisabled = false ∧ (otpTick r st).otpSubscription = none) := by
  constructor
  · induction h with
    | init =>
        intro hx
        exact Bool.noConfusion hx
    | step e st hst ih => exact timerImpliesDisabled_applyEvent e st ih
  · intro r hr h0
    simp [otpTick, hr, h0, stopOtpTimer_eq]

set_option maxRecDepth 8192 in
/-- Witness for C2 (amended) at the reachable state where the counter has
just reached 0 with the run still live: resend is still disabled there,
and the next delivered tick flips it off and kills the subscription. -/
theorem c2_active_timer_implies_resend_disabled_witness :
    (runTrace expiredTrace).resendOtpDisabled = true
    ∧ (otpTick 0 (runTrace expiredTrace)).resendOtpDisabled = false
    ∧ (otpTick 0 (runTrace expiredTrace)).otpSubscription = none := by
  obtain ⟨h1, h2⟩ := c2_active_timer_implies_resend_disabled (runTrace expiredTrace)
    (reachable_runTrace expiredTrace)
  obtain ⟨h3, h4⟩ := h2 0 rfl rfl
  exact ⟨h1 rfl, h3, h4⟩

/-- Claim C3: when the email field fails the email-shape check,
`sendOtp()` (the `requestOtp` trigger) returns before doing anything: no
remote call, no state change. -/
theorem c3_invalid_email_send_noop (st : State) (res : RemoteResult)
    (h : isValidEmail st.email = false) :
    sendOtp res st = (st, []) := by
  have hv : emailFormValid st = false := by
    simp [emailFormValid, h]
  simp [sendOtp, hv]

/-- Witness for C3 at a concrete malformed email. -/
theorem c3_invalid_email_send_noop_witness :
    sendOtp RemoteResult.failure { initState with email := "not-an-email" }
      = ({ initState with email := "not-an-email" }, []) :=
  c3_invalid_email_send_noop { initState with email := "not-an-email" }
    RemoteResult.failure rfl

/-- Claim C4: while resend is disabled the resend trigger is a strict
no-op (no remote call, no state change); when enabled it behaves exactly
like the `requestOtp` path, and on success it restarts the countdown at
the full duration with a live subscription. -/
theorem c4_resend_guard (st : State) (res : RemoteResult) :
    (st.resendOtpDisabled = true → resendOtp res st = (st, []))
    ∧ (st.resendOtpDisabled = false → resendOtp res st = sendOtp res st)
    ∧ (∀ msg, st.resendOtpDisabled = false → emailFormValid st = true →
        (resendOtp (RemoteResult.success msg) st).1.remainingTime = st.otpTimer
        ∧ (resendOtp (RemoteResult.success msg) st).1.otpSubscription.isSome = true) := by
  refine ⟨?_, ?_, ?_⟩
  · intro h
    simp [resendOtp, h]
  · intro h
    simp [resendOtp, h]
  · intro msg h hv
    simp [resendOtp, h, sendOtp, hv, startOtpTimer, stopOtpTimer_eq]

/-- Witness for C4: resend while disabled (in the reachable post-send
state) is a no-op; resend while enabled restarts the full countdown. -/
theorem c4_resend_guard_witness :
    resendOtp RemoteResult.failure (runTrace awaitingTrace) = (runTrace awaitingTrace, [])
    ∧ (resendOtp (RemoteResult.success ("OTP resent"))
        { initState with email := "user@example.com" }).1.remainingTime = 60 := by
  refine ⟨(c4_resend_guard (runTrace awaitingTrace) RemoteResult.failure).1 rfl, ?_⟩
  exact ((c4_resend_guard { initState with email := "user@example.com" }
    (RemoteResult.success ("OTP resent"))).2.2 ("OTP resent") rfl rfl).1

/-- Claim C5: from any step other than `OtpVerified` the new-password
submit trigger is a strict no-op — no remote `resetPassword` call and no
state change. -/
theorem c5_reset_only_from_verified (st : State) (res : RemoteResult)
    (h : currentStep st ≠ WorkflowStep.OtpVerified) :
    submitNewPassword res st = (st, []) := by
  simp [submitNewPassword, h]

/-- Witness for C5 at the initial (`EnteringEmail`) state. -/
theorem c5_reset_only_from_verified_witness :
    submitNewPassword RemoteResult.failure initState = (initState, []) :=
  c5_reset_only_from_verified initState RemoteResult.failure (by decide)

/-- Claim C6 as written is false on the code: in the reachable
`AwaitingOtp` state with the countdown running, `handleBackNavigation()`
(the `goBack` trigger) leaves the subscription alive — the timer is not
stopped. -/
theorem c6_counterexample :
    currentStep (runTrace awaitingTrace) = WorkflowStep.AwaitingOtp
    ∧ (runTrace awaitingTrace).otpSubscription.isSome = true
    ∧ (handleBackNavigation (runTrace awaitingTrace)).1.otpSubscription.isSome = true :=
  ⟨rfl, rfl, rfl⟩

/-- Claim C6 (amended): `goBack()` never touches the timer —
`handleBackNavigation` leaves the subscription handle exactly as it was in
every state; the timer is stopped only by verification success, expiry,
restart, or teardown. -/
theorem c6_back_keeps_timer (st : State) :
    (handleBackNavigation st).1.otpSubscription = st.otpSubscription := by
  unfold handleBackNavigation
  split
  · rfl
  · split <;> rfl

/-- Claim C7: backward navigation follows
`OtpVerified → AwaitingOtp → EnteringEmail → exit`: from any state flagged
verified, the first `goBack` lands on `AwaitingOtp`, the second on
`EnteringEmail`, and the third emits the navigation to the login route;
the first two emit no effect. -/
theorem c7_back_sequence (st : State) (h : st.isOtpVerified = true) :
    currentStep st = WorkflowStep.OtpVerified
    ∧ (handleBackNavigation st).2 = []
    ∧ currentStep (handleBackNavigation st).1 = WorkflowStep.AwaitingOtp
    ∧ (handleBackNavigation (handleBackNavigation st).1).2 = []
    ∧ currentStep (handleBackNavigation (handleBackNavigation st).1).1
        = WorkflowStep.EnteringEmail
    ∧ (handleBackNavigation (handleBackNavigation (handleBackNavigation st).1).1).2
        = [Effect.navigate ("/login")] := by
  simp [handleBackNavigation, currentStep, h]

/-- Witness for C7 at the concrete verified state. -/
theorem c7_back_sequence_witness :
    currentStep (handleBackNavigation verifiedState).1 = WorkflowStep.AwaitingOtp
    ∧ (handleBackNavigation
        (handleBackNavigation (handleBackNavigation verifiedState).1).1).2
        = [Effect.navigate ("/login")] := by
  obtain ⟨h1, h2, h3, h4, h5, h6⟩ := c7_back_sequence verifiedState rfl
  exact ⟨h3, h6⟩

/-- Claim C8: once the live run is stopped, no tick of that run is ever
observed again along any future event sequence (teardown and the stop
inside `startOtpTimer` are the same `stopOtpTimer`); starting a new timer
resets the remaining time to the fixed duration and equally ends the old
run for good; and at any moment at most one run can fire ticks. -/
theorem c8_timer_runs_isolated (st : State) (r : Nat)
    (hre : Reachable st) (hsub : st.otpSubscription = some r) :
    (∀ evs, tickFires r (runEvents evs (stopOtpTimer st)) = false)
    ∧ (startOtpTimer st).remainingTime = st.otpTimer
    ∧ (∀ evs, tickFires r (runEvents evs (startOtpTimer st)) = false)
    ∧ (∀ s : State, ∀ r1 r2 : Nat,
        tickFires r1 s = true → tickFires r2 s = true → r1 = r2) := by
  have hfresh : r < st.nextRunId := reachable_subFresh st hre r hsub
  refine ⟨?_, ?_, ?_, ?_⟩
  · intro evs
    have hd : deadRun r (stopOtpTimer st) := by
      refine ⟨?_, ?_⟩
      · simp [stopOtpTimer_eq]
      · simpa [stopOtpTimer_eq] using hfresh
    have h := deadRun_runEvents evs _ r hd
    simpa [tickFires] using h.1
  · simp [startOtpTimer, stopOtpTimer_eq]
  · intro evs
    have hd : deadRun r (startOtpTimer st) := by
      refine ⟨?_, ?_⟩
      · simp only [startOtpTimer, stopOtpTimer_eq]
        intro hc
        have := Option.some.inj hc
        omega
      · simp only [startOtpTimer, stopOtpTimer_eq]
        omega
    have h := deadRun_runEvents evs _ r hd
    simpa [tickFires] using h.1
  · intro s r1 r2 h1 h2
    simp only [tickFires, decide_eq_true_eq] at h1 h2
    rw [h1] at h2
    exact Option.some.inj h2

/-- Witness for C8 at the reachable post-send state (live run 0): a tick
of run 0 no longer fires after a stop, nor after a restart, and the
restart resets the countdown to the full duration. -/
theorem c8_timer_runs_isolated_witness :
    tickFires 0 (runEvents [Event.tickEv 0] (stopOtpTimer (runTrace awaitingTrace))) = false
    ∧ (startOtpTimer (runTrace awaitingTrace)).remainingTime = 60
    ∧ tickFires 0 (runEvents [] (startOtpTimer (runTrace awaitingTrace))) = false := by
  obtain ⟨h1, h2, h3, h4⟩ := c8_timer_runs_isolated (runTrace awaitingTrace) 0
    (reachable_runTrace awaitingTrace) rfl
  exact ⟨h1 [Event.tickEv 0], h2, h3 []⟩

/-- Claim C9: every remote completion that fails leaves the spec's
observable state (step, remaining seconds, resend flag, field values)
exactly as it was before the call, and the error branch emits the generic
notifier message for that operation. -/
theorem c9_failure_leaves_state (st : State) :
    observable (sendOtp RemoteResult.failure st).1 = observable st
    ∧ (emailFormValid st = true →
        (sendOtp RemoteResult.failure st).2
          = [Effect.requestCode st.email,
             Effect.notify ("Error sending OTP. Please try again.")])
    ∧ (verifyOtp RemoteResult.failure st).1 = st
    ∧ (verifyOtp RemoteResult.failure st).2
        = [Effect.verifyCode st.email st.otp,
           Effect.notify ("Invalid OTP. Please try again.")]
    ∧ observable (resetPassword RemoteResult.failure st).1 = observable st
    ∧ (resetPasswordFormValid st = true →
        (resetPassword RemoteResult.failure st).2
          = [Effect.resetPasswordCall st.email st.password st.confirmPassword,
             Effect.notify ("Error resetting password. Please try again.")]) := by
  refine ⟨?_, ?_, rfl, rfl, ?_, ?_⟩
  · unfold sendOtp
    split
    · rfl
    · simp [observable, currentStep]
  · intro hv
    simp [sendOtp, hv]
  · unfold resetPassword
    split <;> rfl
  · intro hv
    simp [resetPassword, hv]

/-- Witness for C9 at a concrete state whose email and password forms are
both valid: both guarded failure branches emit their generic messages. -/
theorem c9_failure_leaves_state_witness :
    (sendOtp RemoteResult.failure verifiedState).2
      = [Effect.requestCode ("user@example.com"),
         Effect.notify ("Error sending OTP. Please try again.")]
    ∧ (resetPassword RemoteResult.failure verifiedState).2
      = [Effect.resetPasswordCall ("user@example.com") ("Abc12345!") ("Abc12345!"),
         Effect.notify ("Error resetting password. Please try again.")] := by
  obtain ⟨h1, h2, h3, h4, h5, h6⟩ := c9_failure_leaves_state verifiedState
  exact ⟨h2 rfl, h6 rfl⟩

/-- Claim C10: `handleBackNavigation` touches at most the two step flags —
every field value, the remaining time, the resend flag, the subscription
handle, the duration and the loading flag are unchanged in every state. -/
theorem c10_back_frame (st : State) :
    (handleBackNavigation st).1.email = st.email
    ∧ (handleBackNavigation st).1.otp = st.otp
    ∧ (handleBackNavigation st).1.password = st.password
    ∧ (handleBackNavigation st).1.confirmPassword = st.confirmPassword
    ∧ (handleBackNavigation st).1.remainingTime = st.remainingTime
    ∧ (handleBackNavigation st).1.resendOtpDisabled = st.resendOtpDisabled
    ∧ (handleBackNavigation st).1.otpSubscription = st.otpSubscription
    ∧ (handleBackNavigation st).1.otpTimer = st.otpTimer
    ∧ (handleBackNavigation st).1.isLoadingOtp = st.isLoadingOtp := by
  unfold handleBackNavigation
  split
  · simp
  · split <;> simp

end ResetPw
